import Mathlib

/-!
Verification of the Nube Verde energy-telemetry simulator core.

The development shallowly embeds the reading generator (`src/generador.js`),
the simulation clock of the web server (`servidor-web.js`: `procesarLote`,
`ejecutarCiclo`, `detenerSimulador`, the `/api/iniciar` handler) and the
Firestore point mapper (`src/obtenerPuntos.js`).

Modelling conventions:
* JavaScript numbers are embedded as `ℚ`; `+x.toFixed(2)` is `round2`.
* A JS `Date` is embedded as `Fecha`: its epoch milliseconds (`getTime`,
  used by every date comparison and by date arithmetic) together with its
  local-time observers `getHours` and `getDay`.
* `Math.random()` is an explicit stream `rnd : ℕ → ℚ` of uniform draws;
  a function that draws returns, next to its result, the number of draws
  it consumed, so that consumption order is observable.
* The config fields `FECHA_INICIO` / `FECHA_FIN` are date strings parsed
  with `parsearFecha` before any use; they are embedded already parsed, as
  `fechaInicioMs` / `fechaFinMs : Option ℤ` (epoch milliseconds, `none`
  for `null`).
-/

namespace NubeVerde

/-- JavaScript `+x.toFixed(2)`: round to two decimal places. -/
def round2 (x : ℚ) : ℚ := ((round (x * 100) : ℤ) : ℚ) / 100

/-- One peak window of `CONFIG.HORARIOS_PICO` (`{ inicio, fin }`, 24h hours). -/
structure Ventana where
  inicio : ℕ
  fin : ℕ
deriving DecidableEq

/-- `CONFIG.HORARIOS_PICO`: the two named peak windows. -/
structure HorariosPico where
  MANANA : Ventana
  TARDE : Ventana
deriving DecidableEq

/-- The simulator configuration (`config/config.js`, `CONFIG`).
`fechaInicioMs` / `fechaFinMs` are `FECHA_INICIO` / `FECHA_FIN` parsed to
epoch milliseconds (`parsearFecha`), `none` standing for `null`. -/
structure Config where
  INTERVALO_MS : ℕ
  fechaInicioMs : Option ℤ
  fechaFinMs : Option ℤ
  INCREMENTO_TIEMPO_MS : ℤ
  SIMULAR_PICOS : Bool
  HORARIOS_PICO : HorariosPico
  FACTOR_PICO : ℚ
  FACTOR_FIN_SEMANA : ℚ
  VARIACION_CONSUMO : ℚ
  PROBABILIDAD_ERROR : ℚ
  BATCH_SIZE : ℕ
  DELAY_ENTRE_LOTES : ℕ
deriving DecidableEq

/-- The default `CONFIG` object of `config/config.js`, parameterised by the
parsed epoch value of its `FECHA_INICIO` string `"2025-01-01 00:00:00"`
(local-time parsing is timezone dependent, so the value stays abstract). -/
def CONFIG (fechaInicioT : ℤ) : Config where
  INTERVALO_MS := 10000
  fechaInicioMs := some fechaInicioT
  fechaFinMs := none
  INCREMENTO_TIEMPO_MS := 3600000
  SIMULAR_PICOS := false
  HORARIOS_PICO := ⟨⟨8, 12⟩, ⟨14, 18⟩⟩
  FACTOR_PICO := 3 / 2
  FACTOR_FIN_SEMANA := 3 / 10
  VARIACION_CONSUMO := 1 / 5
  PROBABILIDAD_ERROR := 1 / 50
  BATCH_SIZE := 10
  DELAY_ENTRE_LOTES := 1000

/-- A JS `Date`: epoch milliseconds plus its local-time observers
`getHours ∈ 0..23` and `getDay ∈ 0..6` (0 = Sunday, 6 = Saturday). -/
structure Fecha where
  t : ℤ
  hora : ℕ
  dia : ℕ
deriving DecidableEq

/-- A monitoring point as returned by `obtenerPuntos` (`src/obtenerPuntos.js`). -/
structure Punto where
  docId : String
  id : String
  nombre : String
  descripcion : String
  ubicacion : String
  activo : Bool
  consumo_base_kwh : ℚ
  potencia_base_w : ℚ
deriving DecidableEq

/-- A generated reading (`src/generador.js`). -/
structure Lectura where
  id_punto : String
  estado : String
  consumo_kwh : ℚ
  fecha : Fecha
deriving DecidableEq

/-- `esHorarioPico(hora)` of `src/generador.js`: half-open membership in the
morning or afternoon peak window. -/
def esHorarioPico (cfg : Config) (hora : ℕ) : Bool :=
  let enPicoManana := decide (hora ≥ cfg.HORARIOS_PICO.MANANA.inicio) &&
    decide (hora < cfg.HORARIOS_PICO.MANANA.fin)
  let enPicoTarde := decide (hora ≥ cfg.HORARIOS_PICO.TARDE.inicio) &&
    decide (hora < cfg.HORARIOS_PICO.TARDE.fin)
  enPicoManana || enPicoTarde

/-- `deberiaaplicarPico(fecha)` of `src/generador.js`: with no `FECHA_INICIO`
configured always `true`, else `fecha >= fechaInicio` (epoch comparison). -/
def deberiaaplicarPico (cfg : Config) (fecha : Fecha) : Bool :=
  match cfg.fechaInicioMs with
  | none => true
  | some t0 => decide (t0 ≤ fecha.t)

/-- `generarLectura(punto, fechaSimulada)` of `src/generador.js`, with the
`Math.random()` stream explicit. The second component is the number of
uniform draws consumed: the error check reads `rnd 0`, the variance reads
`rnd 1`. -/
def generarLectura (cfg : Config) (punto : Punto) (fechaSimulada : Fecha)
    (rnd : ℕ → ℚ) : Lectura × ℕ :=
  if punto.activo = false then
    (⟨punto.id, "inactivo", 0, fechaSimulada⟩, 0)
  else if rnd 0 < cfg.PROBABILIDAD_ERROR then
    (⟨punto.id, "error", 0, fechaSimulada⟩, 1)
  else
    let consumo := punto.consumo_base_kwh
    let consumo :=
      if cfg.SIMULAR_PICOS && deberiaaplicarPico cfg fechaSimulada then
        if esHorarioPico cfg fechaSimulada.hora then consumo * cfg.FACTOR_PICO
        else consumo
      else consumo
    let diaSemana := fechaSimulada.dia
    let esFinDeSemana := diaSemana = 0 ∨ diaSemana = 6
    let consumo := if esFinDeSemana then consumo * cfg.FACTOR_FIN_SEMANA else consumo
    let variacion := 1 + (rnd 1 * 2 - 1) * cfg.VARIACION_CONSUMO
    let consumo := consumo * variacion
    (⟨punto.id, "activo", round2 consumo, fechaSimulada⟩, 2)

/-- A concrete active point, used by witnesses. -/
def puntoEjemplo : Punto :=
  ⟨"doc1", "N1", "Auditorio Principal", "", "", true, 31 / 2, 1100⟩

/-- A concrete inactive point, used by witnesses. -/
def puntoInactivo : Punto :=
  ⟨"doc2", "N2", "Bodega", "", "", false, 5, 500⟩

/-- A concrete timestamp (Saturday, 08:00 local), used by witnesses. -/
def fechaEjemplo : Fecha := ⟨0, 8, 6⟩

/-- C2: for a point with `activo = false`, `generarLectura` returns
`estado = "inactivo"` and `consumo_kwh = 0` immediately — the result is the
same for every configuration, timestamp observer and random stream, and
zero uniform draws are consumed. -/
theorem generarLectura_inactivo (cfg : Config) (punto : Punto) (fecha : Fecha)
    (rnd : ℕ → ℚ) (h : punto.activo = false) :
    generarLectura cfg punto fecha rnd = (⟨punto.id, "inactivo", 0, fecha⟩, 0) := by
  simp [generarLectura, h]

/-- Witness for C2 at a concrete inactive point. -/
theorem generarLectura_inactivo_witness :
    generarLectura (CONFIG 0) puntoInactivo fechaEjemplo (fun _ => 1 / 2) =
      (⟨"N2", "inactivo", 0, fechaEjemplo⟩, 0) :=
  generarLectura_inactivo (CONFIG 0) puntoInactivo fechaEjemplo (fun _ => 1 / 2) rfl

/-- Closed form of the active branch of `generarLectura`: shared helper. -/
theorem generarLectura_activo_caso (cfg : Config) (punto : Punto)
    (fecha : Fecha) (rnd : ℕ → ℚ) (hact : punto.activo = true)
    (herr : ¬ rnd 0 < cfg.PROBABILIDAD_ERROR) :
    (generarLectura cfg punto fecha rnd).1.estado = "activo" ∧
    (generarLectura cfg punto fecha rnd).1.consumo_kwh =
      round2 (punto.consumo_base_kwh *
        (if cfg.SIMULAR_PICOS && deberiaaplicarPico cfg fecha &&
            esHorarioPico cfg fecha.hora then cfg.FACTOR_PICO else 1) *
        (if fecha.dia = 0 ∨ fecha.dia = 6 then cfg.FACTOR_FIN_SEMANA else 1) *
        (1 + (2 * rnd 1 - 1) * cfg.VARIACION_CONSUMO)) := by
  have hact' : ¬ punto.activo = false := by simp [hact]
  refine ⟨?_, ?_⟩
  · simp only [generarLectura, if_neg hact', if_neg herr]
  · simp only [generarLectura, if_neg hact', if_neg herr]
    show round2 _ = round2 _
    apply congrArg
    rcases Bool.eq_false_or_eq_true
        (cfg.SIMULAR_PICOS && deberiaaplicarPico cfg fecha) with hA | hA <;>
      rcases Bool.eq_false_or_eq_true (esHorarioPico cfg fecha.hora) with hB | hB <;>
      by_cases hC : fecha.dia = 0 ∨ fecha.dia = 6 <;>
      simp only [hA, hB, hC, Bool.true_and, Bool.and_true, Bool.false_and,
        Bool.and_false, Bool.and_self, eq_self_iff_true, Bool.false_eq_true,
        if_true, if_false, not_false_iff] <;>
      ring

/-- C1: for an active point, when the error rule does not fire, the reading
has `estado = "activo"` and its consumption is the base consumption times
the peak factor (exactly when the peak rule fires), times the weekend
factor (exactly when the local day is Saturday or Sunday; both factors can
compose on one reading), times `1 + (2u - 1) * VARIACION_CONSUMO` with `u`
the second draw — rounded to two decimals exactly once, at the end. -/
theorem generarLectura_activo_formula (cfg : Config) (punto : Punto)
    (fecha : Fecha) (rnd : ℕ → ℚ) (hact : punto.activo = true)
    (herr : ¬ rnd 0 < cfg.PROBABILIDAD_ERROR) :
    (generarLectura cfg punto fecha rnd).1.estado = "activo" ∧
    (generarLectura cfg punto fecha rnd).1.consumo_kwh =
      round2 (punto.consumo_base_kwh *
        (if cfg.SIMULAR_PICOS && deberiaaplicarPico cfg fecha &&
            esHorarioPico cfg fecha.hora then cfg.FACTOR_PICO else 1) *
        (if fecha.dia = 0 ∨ fecha.dia = 6 then cfg.FACTOR_FIN_SEMANA else 1) *
        (1 + (2 * rnd 1 - 1) * cfg.VARIACION_CONSUMO)) :=
  generarLectura_activo_caso cfg punto fecha rnd hact herr

/-- Witness for C1 at a concrete active point and concrete draws. -/
theorem generarLectura_activo_formula_witness :
    (generarLectura (CONFIG 0) puntoEjemplo fechaEjemplo (fun _ => 1 / 2)).1.estado =
      "activo" ∧
    (generarLectura (CONFIG 0) puntoEjemplo fechaEjemplo (fun _ => 1 / 2)).1.consumo_kwh =
      round2 (puntoEjemplo.consumo_base_kwh *
        (if (CONFIG 0).SIMULAR_PICOS && deberiaaplicarPico (CONFIG 0) fechaEjemplo &&
            esHorarioPico (CONFIG 0) fechaEjemplo.hora then (CONFIG 0).FACTOR_PICO else 1) *
        (if fechaEjemplo.dia = 0 ∨ fechaEjemplo.dia = 6 then (CONFIG 0).FACTOR_FIN_SEMANA
          else 1) *
        (1 + (2 * (1 / 2 : ℚ) - 1) * (CONFIG 0).VARIACION_CONSUMO)) :=
  generarLectura_activo_formula (CONFIG 0) puntoEjemplo fechaEjemplo (fun _ => 1 / 2)
    rfl (by norm_num [CONFIG])

/-- Half-open window membership, as the spec words it:
`hour >= inicio && hour < fin`. -/
def enVentana (v : Ventana) (hora : ℕ) : Prop := v.inicio ≤ hora ∧ hora < v.fin

instance (v : Ventana) (hora : ℕ) : Decidable (enVentana v hora) :=
  instDecidableAnd

/-- The peak condition of claim C3, written from the spec's words:
`SIMULAR_PICOS` is on, the local hour lies in at least one configured
window (half-open), and — when a start date is configured — the simulated
timestamp is on or after it (the gate passes whenever no start date is
configured). -/
def picoSegunSpec (cfg : Config) (fecha : Fecha) : Prop :=
  cfg.SIMULAR_PICOS = true ∧
  (enVentana cfg.HORARIOS_PICO.MANANA fecha.hora ∨
    enVentana cfg.HORARIOS_PICO.TARDE fecha.hora) ∧
  (∀ t0 : ℤ, cfg.fechaInicioMs = some t0 → t0 ≤ fecha.t)

/-- The spec-side peak condition coincides with the code's guard
`SIMULAR_PICOS && deberiaaplicarPico(fecha) && esHorarioPico(hora)`. -/
theorem picoSegunSpec_iff (cfg : Config) (fecha : Fecha) :
    picoSegunSpec cfg fecha ↔
      (cfg.SIMULAR_PICOS && deberiaaplicarPico cfg fecha &&
        esHorarioPico cfg fecha.hora) = true := by
  unfold picoSegunSpec enVentana esHorarioPico deberiaaplicarPico
  cases h : cfg.fechaInicioMs <;>
    simp [h, Bool.and_eq_true, decide_eq_true_eq, and_assoc]
  tauto

/-- C3: for an active, non-error reading, the multiplication by
`FACTOR_PICO` happens exactly once when `SIMULAR_PICOS` is on, the hour is
in some window under half-open membership, and the (optional) start-date
gate passes — and not at all otherwise. With the default windows 8–12 and
14–18, hour 12 is not peak and hour 8 is peak. -/
theorem generarLectura_pico_caracterizacion (cfg : Config) (punto : Punto)
    (fecha : Fecha) (rnd : ℕ → ℚ) (t0 : ℤ) (hact : punto.activo = true)
    (herr : ¬ rnd 0 < cfg.PROBABILIDAD_ERROR) :
    (picoSegunSpec cfg fecha →
      (generarLectura cfg punto fecha rnd).1.consumo_kwh =
        round2 (punto.consumo_base_kwh * cfg.FACTOR_PICO *
          (if fecha.dia = 0 ∨ fecha.dia = 6 then cfg.FACTOR_FIN_SEMANA else 1) *
          (1 + (2 * rnd 1 - 1) * cfg.VARIACION_CONSUMO))) ∧
    (¬ picoSegunSpec cfg fecha →
      (generarLectura cfg punto fecha rnd).1.consumo_kwh =
        round2 (punto.consumo_base_kwh *
          (if fecha.dia = 0 ∨ fecha.dia = 6 then cfg.FACTOR_FIN_SEMANA else 1) *
          (1 + (2 * rnd 1 - 1) * cfg.VARIACION_CONSUMO))) ∧
    esHorarioPico (CONFIG t0) 12 = false ∧
    esHorarioPico (CONFIG t0) 8 = true := by
  have h := (generarLectura_activo_caso cfg punto fecha rnd hact herr).2
  refine ⟨?_, ?_, rfl, rfl⟩
  · intro hp
    rw [h, if_pos ((picoSegunSpec_iff cfg fecha).mp hp)]
  · intro hp
    rw [h, if_neg (fun hb => hp ((picoSegunSpec_iff cfg fecha).mpr hb)), mul_one]

/-- A configuration with peak simulation on, used by witnesses. -/
def configPicos : Config := { CONFIG 0 with SIMULAR_PICOS := true }

/-- Witness for C3 at a concrete configuration (peaks on, window 8–12),
a Saturday at 08:00 on the configured start date. -/
theorem generarLectura_pico_caracterizacion_witness :
    (picoSegunSpec configPicos fechaEjemplo →
      (generarLectura configPicos puntoEjemplo fechaEjemplo (fun _ => 1 / 2)).1.consumo_kwh =
        round2 (puntoEjemplo.consumo_base_kwh * configPicos.FACTOR_PICO *
          (if fechaEjemplo.dia = 0 ∨ fechaEjemplo.dia = 6 then
            configPicos.FACTOR_FIN_SEMANA else 1) *
          (1 + (2 * (1 / 2 : ℚ) - 1) * configPicos.VARIACION_CONSUMO))) ∧
    (¬ picoSegunSpec configPicos fechaEjemplo →
      (generarLectura configPicos puntoEjemplo fechaEjemplo (fun _ => 1 / 2)).1.consumo_kwh =
        round2 (puntoEjemplo.consumo_base_kwh *
          (if fechaEjemplo.dia = 0 ∨ fechaEjemplo.dia = 6 then
            configPicos.FACTOR_FIN_SEMANA else 1) *
          (1 + (2 * (1 / 2 : ℚ) - 1) * configPicos.VARIACION_CONSUMO))) ∧
    esHorarioPico (CONFIG 0) 12 = false ∧
    esHorarioPico (CONFIG 0) 8 = true :=
  generarLectura_pico_caracterizacion configPicos puntoEjemplo fechaEjemplo
    (fun _ => 1 / 2) 0 rfl (by norm_num [configPicos, CONFIG])

/-- C4: for an active point the error check reads the first uniform draw,
fires exactly when it is below `PROBABILIDAD_ERROR`, and then yields the
error reading with zero consumption having consumed only that one draw
(the variance draw, index 1, is only read afterwards, in the non-error
branch, which consumes two). With `PROBABILIDAD_ERROR = 1` every active
reading is an error; with `PROBABILIDAD_ERROR = 0` none is. The reading
depends on the stream only through the first two draws. -/
theorem generarLectura_regla_de_error (cfg : Config) (punto : Punto)
    (fecha : Fecha) (rnd : ℕ → ℚ) (hact : punto.activo = true)
    (h0 : 0 ≤ rnd 0) (h1 : rnd 0 < 1) :
    ((generarLectura cfg punto fecha rnd).1.estado = "error" ↔
      rnd 0 < cfg.PROBABILIDAD_ERROR) ∧
    (rnd 0 < cfg.PROBABILIDAD_ERROR →
      generarLectura cfg punto fecha rnd = (⟨punto.id, "error", 0, fecha⟩, 1)) ∧
    (generarLectura cfg punto fecha rnd).2 =
      (if rnd 0 < cfg.PROBABILIDAD_ERROR then 1 else 2) ∧
    (cfg.PROBABILIDAD_ERROR = 1 →
      (generarLectura cfg punto fecha rnd).1.estado = "error") ∧
    (cfg.PROBABILIDAD_ERROR = 0 →
      (generarLectura cfg punto fecha rnd).1.estado ≠ "error") ∧
    (∀ rnd' : ℕ → ℚ, rnd' 0 = rnd 0 → rnd' 1 = rnd 1 →
      generarLectura cfg punto fecha rnd = generarLectura cfg punto fecha rnd') := by
  refine ⟨?_, ?_, ?_, ?_, ?_, ?_⟩
  · by_cases herr : rnd 0 < cfg.PROBABILIDAD_ERROR <;>
      simp [generarLectura, hact, herr]
  · intro herr
    simp [generarLectura, hact, herr]
  · by_cases herr : rnd 0 < cfg.PROBABILIDAD_ERROR <;>
      simp [generarLectura, hact, herr]
  · intro hP
    have herr : rnd 0 < cfg.PROBABILIDAD_ERROR := by rw [hP]; exact h1
    simp [generarLectura, hact, herr]
  · intro hP
    have herr : ¬ rnd 0 < cfg.PROBABILIDAD_ERROR := by
      rw [hP]; exact not_lt.mpr h0
    simp [generarLectura, hact, herr]
  · intro rnd' e0 e1
    simp only [generarLectura, e0, e1]

/-- Witness for C4 at a concrete active point with draws 1/2. -/
theorem generarLectura_regla_de_error_witness :
    (((generarLectura (CONFIG 0) puntoEjemplo fechaEjemplo (fun _ => 1 / 2)).1.estado =
        "error" ↔ (1 / 2 : ℚ) < (CONFIG 0).PROBABILIDAD_ERROR) ∧
      ((1 / 2 : ℚ) < (CONFIG 0).PROBABILIDAD_ERROR →
        generarLectura (CONFIG 0) puntoEjemplo fechaEjemplo (fun _ => 1 / 2) =
          (⟨puntoEjemplo.id, "error", 0, fechaEjemplo⟩, 1)) ∧
      (generarLectura (CONFIG 0) puntoEjemplo fechaEjemplo (fun _ => 1 / 2)).2 =
        (if (1 / 2 : ℚ) < (CONFIG 0).PROBABILIDAD_ERROR then 1 else 2) ∧
      ((CONFIG 0).PROBABILIDAD_ERROR = 1 →
        (generarLectura (CONFIG 0) puntoEjemplo fechaEjemplo (fun _ => 1 / 2)).1.estado =
          "error") ∧
      ((CONFIG 0).PROBABILIDAD_ERROR = 0 →
        (generarLectura (CONFIG 0) puntoEjemplo fechaEjemplo (fun _ => 1 / 2)).1.estado ≠
          "error") ∧
      (∀ rnd' : ℕ → ℚ, rnd' 0 = (1 / 2 : ℚ) → rnd' 1 = (1 / 2 : ℚ) →
        generarLectura (CONFIG 0) puntoEjemplo fechaEjemplo (fun _ => 1 / 2) =
          generarLectura (CONFIG 0) puntoEjemplo fechaEjemplo rnd')) :=
  generarLectura_regla_de_error (CONFIG 0) puntoEjemplo fechaEjemplo
    (fun _ => 1 / 2) rfl (by norm_num) (by norm_num)

/-- `round2` preserves nonnegativity. -/
theorem round2_nonneg {x : ℚ} (h : 0 ≤ x) : 0 ≤ round2 x := by
  unfold round2
  have h2 : (0 : ℤ) ≤ round (x * 100) := by
    rw [round_eq]
    exact Int.floor_nonneg.mpr (by linarith)
  have h3 : (0 : ℚ) ≤ ((round (x * 100) : ℤ) : ℚ) := by exact_mod_cast h2
  exact div_nonneg h3 (by norm_num)

/-- C5: with the documented domains — nonnegative base consumption and
factors, `VARIACION_CONSUMO` a fraction in `[0, 1]`, and a uniform
variance draw (`0 ≤ u`) — every generated reading has nonnegative
`consumo_kwh`, in particular every `estado = "activo"` one. -/
theorem generarLectura_consumo_no_negativo (cfg : Config) (punto : Punto)
    (fecha : Fecha) (rnd : ℕ → ℚ) (hbase : 0 ≤ punto.consumo_base_kwh)
    (hpico : 0 ≤ cfg.FACTOR_PICO) (hfs : 0 ≤ cfg.FACTOR_FIN_SEMANA)
    (hv0 : 0 ≤ cfg.VARIACION_CONSUMO) (hv1 : cfg.VARIACION_CONSUMO ≤ 1)
    (hu0 : 0 ≤ rnd 1) :
    0 ≤ (generarLectura cfg punto fecha rnd).1.consumo_kwh := by
  by_cases hact : punto.activo = false
  · simp [generarLectura, hact]
  · by_cases herr : rnd 0 < cfg.PROBABILIDAD_ERROR
    · simp [generarLectura, hact, herr]
    · have hact' : punto.activo = true := by
        revert hact; cases punto.activo <;> simp
      rw [(generarLectura_activo_caso cfg punto fecha rnd hact' herr).2]
      apply round2_nonneg
      have hvar : 0 ≤ 1 + (2 * rnd 1 - 1) * cfg.VARIACION_CONSUMO := by
        nlinarith [mul_nonneg hu0 hv0]
      have hpf : 0 ≤ (if cfg.SIMULAR_PICOS && deberiaaplicarPico cfg fecha &&
          esHorarioPico cfg fecha.hora then cfg.FACTOR_PICO else (1 : ℚ)) := by
        split
        · exact hpico
        · norm_num
      have hwf : 0 ≤ (if fecha.dia = 0 ∨ fecha.dia = 6 then
          cfg.FACTOR_FIN_SEMANA else (1 : ℚ)) := by
        split
        · exact hfs
        · norm_num
      exact mul_nonneg (mul_nonneg (mul_nonneg hbase hpf) hwf) hvar

/-- Witness for C5 at a concrete point, configuration and draws. -/
theorem generarLectura_consumo_no_negativo_witness :
    0 ≤ (generarLectura (CONFIG 0) puntoEjemplo fechaEjemplo (fun _ => 1 / 2)).1.consumo_kwh :=
  generarLectura_consumo_no_negativo (CONFIG 0) puntoEjemplo fechaEjemplo
    (fun _ => 1 / 2) (by norm_num [puntoEjemplo]) (by norm_num [CONFIG])
    (by norm_num [CONFIG]) (by norm_num [CONFIG]) (by norm_num [CONFIG])
    (by norm_num)

/-!
The simulation clock of `servidor-web.js`. Its global `simuladorState` is
the structure below; `visitas` records the trace of simulated instants
(epoch ms) handed to `ejecutarCiclo`, and `rndIdx` is the cursor into the
global `Math.random()` stream. The persistence collaborator
(`enviarLectura`) is abstracted by a failure predicate
`envioFalla : Lectura → Bool` (`true` = the handoff of that reading
rejects), and the local-time decomposition of `new Date(ms)` by a function
`mkFecha : ℤ → Fecha`.
-/

/-- The mutable `simuladorState` of `servidor-web.js`, restricted to the
fields the clock itself reads or writes, plus the trace `visitas`. -/
structure SimState where
  corriendo : Bool
  intervalo : Bool
  puntos : List Punto
  totalEnviadas : ℕ
  lecturas : List Lectura
  rndIdx : ℕ
  visitas : List ℤ
deriving DecidableEq

/-- The `for (const punto of ...)` loop of `ejecutarCiclo`: per point,
generate a reading and hand it to `enviarLectura`; on success push it and
increment `totalEnviadas`, on failure only report (the loop continues).
Arguments `k` (random-stream cursor) and `total` (`totalEnviadas`) are
threaded; the result is `(lecturasLote, k', total')`. -/
def cicloPuntos (cfg : Config) (fecha : Fecha) (rnd : ℕ → ℚ)
    (envioFalla : Lectura → Bool) :
    List Punto → ℕ → ℕ → List Lectura × ℕ × ℕ
  | [], k, total => ([], k, total)
  | p :: ps, k, total =>
    let r := generarLectura cfg p fecha (fun i => rnd (k + i))
    if envioFalla r.1 then
      cicloPuntos cfg fecha rnd envioFalla ps (k + r.2) total
    else
      let rest := cicloPuntos cfg fecha rnd envioFalla ps (k + r.2) (total + 1)
      (r.1 :: rest.1, rest.2.1, rest.2.2)

/-- `ejecutarCiclo(fecha)` of `servidor-web.js` as a state transformer: runs
the per-point loop over `s.puntos`, keeps the first 100 readings
(`[...lecturasLote, ...state.lecturas].slice(0, 100)`), updates the
counters, and records the processed instant in the trace. -/
def ejecutarCiclo (cfg : Config) (mkFecha : ℤ → Fecha) (rnd : ℕ → ℚ)
    (envioFalla : Lectura → Bool) (t : ℤ) (s : SimState) : SimState :=
  let r := cicloPuntos cfg (mkFecha t) rnd envioFalla s.puntos s.rndIdx s.totalEnviadas
  { s with
    lecturas := (r.1 ++ s.lecturas).take 100
    rndIdx := r.2.1
    totalEnviadas := r.2.2
    visitas := s.visitas ++ [t] }

/-- `detenerSimulador()` of `servidor-web.js`: clear the interval timer and
drop the running flag. -/
def detenerSimulador (s : SimState) : SimState :=
  { s with intervalo := false, corriendo := false }

/-- The `procesarLote` loop of `iniciarModoHistorico` in `servidor-web.js`:
before each step it checks `!corriendo || fechaActual > fechaFin` and, when
the check fires, calls `detenerSimulador` and returns; otherwise it runs
one cycle at `fechaActual`, advances the cursor by `incremento`, and
re-schedules itself. The `fuel` argument bounds the number of scheduler
activations (the JS loop has none; every theorem below holds for every
sufficiently large fuel). -/
def procesarLote (cfg : Config) (mkFecha : ℤ → Fecha) (rnd : ℕ → ℚ)
    (envioFalla : Lectura → Bool) (fechaFin incremento : ℤ) :
    ℕ → ℤ → SimState → SimState
  | 0, _, s => s
  | fuel + 1, fechaActual, s =>
    if s.corriendo = false ∨ fechaFin < fechaActual then detenerSimulador s
    else
      procesarLote cfg mkFecha rnd envioFalla fechaFin incremento fuel
        (fechaActual + incremento)
        (ejecutarCiclo cfg mkFecha rnd envioFalla fechaActual s)

/-- An HTTP response of the control API (`res.json({ success, message })`). -/
structure ApiRespuesta where
  success : Bool
  message : Option String
deriving DecidableEq

/-- The `POST /api/iniciar` handler of `servidor-web.js`: reject when not
authenticated, reject when `corriendo` is already set; otherwise load the
points when none are cached, pick the mode from the presence of a start
date, set `corriendo`, and launch the matching mode (`iniciarModoHistorico`
runs the `procesarLote` chain from the start date to
`FECHA_FIN ?? now`; `iniciarModoTiempoReal` runs one immediate cycle at the
wall-clock time and arms the interval timer). `currentUser` models
`auth.currentUser`, `puntosDescargados` the result of `obtenerPuntos()`,
and `ahora` the wall clock `new Date()`. -/
def apiIniciar (cfg : Config) (mkFecha : ℤ → Fecha) (rnd : ℕ → ℚ)
    (envioFalla : Lectura → Bool) (currentUser : Bool)
    (puntosDescargados : List Punto) (ahora : ℤ) (fuel : ℕ)
    (s : SimState) : SimState × ApiRespuesta :=
  if currentUser = false then
    (s, ⟨false, some "Debes iniciar sesion primero"⟩)
  else if s.corriendo = true then
    (s, ⟨false, some "El simulador ya esta corriendo"⟩)
  else
    let s1 := if s.puntos.isEmpty then { s with puntos := puntosDescargados } else s
    match cfg.fechaInicioMs with
    | some t0 =>
      let s2 := { s1 with corriendo := true }
      let fechaFin := cfg.fechaFinMs.getD ahora
      let incremento :=
        if cfg.INCREMENTO_TIEMPO_MS = 0 then 3600000 else cfg.INCREMENTO_TIEMPO_MS
      (procesarLote cfg mkFecha rnd envioFalla fechaFin incremento fuel t0 s2,
        ⟨true, none⟩)
    | none =>
      let s2 := { s1 with corriendo := true }
      let s3 := ejecutarCiclo cfg mkFecha rnd envioFalla ahora s2
      ({ s3 with intervalo := true }, ⟨true, none⟩)

/-- `ejecutarCiclo` never touches the running flag. -/
theorem ejecutarCiclo_corriendo (cfg : Config) (mkFecha : ℤ → Fecha)
    (rnd : ℕ → ℚ) (envioFalla : Lectura → Bool) (t : ℤ) (s : SimState) :
    (ejecutarCiclo cfg mkFecha rnd envioFalla t s).corriendo = s.corriendo := rfl

/-- `ejecutarCiclo` appends the processed instant to the trace. -/
theorem ejecutarCiclo_visitas (cfg : Config) (mkFecha : ℤ → Fecha)
    (rnd : ℕ → ℚ) (envioFalla : Lectura → Bool) (t : ℤ) (s : SimState) :
    (ejecutarCiclo cfg mkFecha rnd envioFalla t s).visitas = s.visitas ++ [t] := rfl

/-- When the pre-step check fires (stopped, or cursor past the end date),
`procesarLote` performs no step: trace and counter are left alone. -/
theorem procesarLote_alto (cfg : Config) (mkFecha : ℤ → Fecha) (rnd : ℕ → ℚ)
    (envioFalla : Lectura → Bool) (fechaFin incremento : ℤ) (fuel : ℕ)
    (fechaActual : ℤ) (s : SimState)
    (h : s.corriendo = false ∨ fechaFin < fechaActual) :
    (procesarLote cfg mkFecha rnd envioFalla fechaFin incremento fuel fechaActual
        s).visitas = s.visitas ∧
    (procesarLote cfg mkFecha rnd envioFalla fechaFin incremento fuel fechaActual
        s).totalEnviadas = s.totalEnviadas := by
  cases fuel with
  | zero => exact ⟨rfl, rfl⟩
  | succ n => rw [procesarLote, if_pos h]; exact ⟨rfl, rfl⟩

/-- When the pre-step check passes, `procesarLote` runs one cycle at the
cursor and recurses at the advanced cursor. -/
theorem procesarLote_paso (cfg : Config) (mkFecha : ℤ → Fecha) (rnd : ℕ → ℚ)
    (envioFalla : Lectura → Bool) (fechaFin incremento : ℤ) (fuel : ℕ)
    (fechaActual : ℤ) (s : SimState) (hc : s.corriendo = true)
    (hle : fechaActual ≤ fechaFin) :
    procesarLote cfg mkFecha rnd envioFalla fechaFin incremento (fuel + 1)
        fechaActual s =
      procesarLote cfg mkFecha rnd envioFalla fechaFin incremento fuel
        (fechaActual + incremento)
        (ejecutarCiclo cfg mkFecha rnd envioFalla fechaActual s) := by
  rw [procesarLote, if_neg (by simp [hc, hle.not_lt])]

/-- C6: in historical mode the cursor starts at the configured start date
and advances by the step after each cycle; the only pre-step stop checks
are `cursor > endDate` and the external stop, so the end date itself is
processed. With a 3-hour range and a 1-hour step the loop visits exactly
the four instants 0h, 1h, 2h, 3h past the start, each once, in increasing
order. -/
theorem procesarLote_historico_inclusivo (cfg : Config) (mkFecha : ℤ → Fecha)
    (rnd : ℕ → ℚ) (envioFalla : Lectura → Bool) (t0 : ℤ) (fuel : ℕ)
    (s : SimState) (hc : s.corriendo = true) (hv : s.visitas = [])
    (hfuel : 5 ≤ fuel) :
    (procesarLote cfg mkFecha rnd envioFalla (t0 + 10800000) 3600000 fuel t0
        s).visitas = [t0, t0 + 3600000, t0 + 7200000, t0 + 10800000] ∧
    List.Chain' (· < ·) [t0, t0 + 3600000, t0 + 7200000, t0 + 10800000] := by
  obtain ⟨n, rfl⟩ : ∃ n, fuel = n + 5 := ⟨fuel - 5, by omega⟩
  constructor
  · rw [show n + 5 = n + 4 + 1 from rfl,
      procesarLote_paso cfg mkFecha rnd envioFalla (t0 + 10800000) 3600000
        (n + 4) t0 s hc (by omega),
      show n + 4 = n + 3 + 1 from rfl,
      procesarLote_paso cfg mkFecha rnd envioFalla (t0 + 10800000) 3600000
        (n + 3) (t0 + 3600000)
        (ejecutarCiclo cfg mkFecha rnd envioFalla t0 s) hc (by omega),
      show n + 3 = n + 2 + 1 from rfl,
      procesarLote_paso cfg mkFecha rnd envioFalla (t0 + 10800000) 3600000
        (n + 2) (t0 + 3600000 + 3600000)
        (ejecutarCiclo cfg mkFecha rnd envioFalla (t0 + 3600000)
          (ejecutarCiclo cfg mkFecha rnd envioFalla t0 s)) hc (by omega),
      show n + 2 = n + 1 + 1 from rfl,
      procesarLote_paso cfg mkFecha rnd envioFalla (t0 + 10800000) 3600000
        (n + 1) (t0 + 3600000 + 3600000 + 3600000)
        (ejecutarCiclo cfg mkFecha rnd envioFalla (t0 + 3600000 + 3600000)
          (ejecutarCiclo cfg mkFecha rnd envioFalla (t0 + 3600000)
            (ejecutarCiclo cfg mkFecha rnd envioFalla t0 s))) hc (by omega)]
    rw [(procesarLote_alto _ _ _ _ _ _ _ _ _ (Or.inr (by omega))).1]
    simp only [ejecutarCiclo_visitas, hv]
    simp only [List.nil_append, List.cons_append, List.singleton_append,
      List.append_assoc, List.cons.injEq, and_true, true_and]
    omega
  · simp only [List.chain'_cons, List.chain'_singleton, and_true]
    omega

/-- Witness for C6 at a concrete start instant, fuel and initial state. -/
theorem procesarLote_historico_inclusivo_witness :
    (procesarLote (CONFIG 0) (fun t => ⟨t, 0, 0⟩) (fun _ => 1 / 2)
        (fun _ => false) ((0 : ℤ) + 10800000) 3600000 5 0
        ⟨true, false, [puntoEjemplo], 0, [], 0, []⟩).visitas =
      [(0 : ℤ), 0 + 3600000, 0 + 7200000, 0 + 10800000] ∧
    List.Chain' (· < ·) [(0 : ℤ), 0 + 3600000, 0 + 7200000, 0 + 10800000] :=
  procesarLote_historico_inclusivo (CONFIG 0) (fun t => ⟨t, 0, 0⟩)
    (fun _ => 1 / 2) (fun _ => false) 0 5
    ⟨true, false, [puntoEjemplo], 0, [], 0, []⟩ rfl rfl (by norm_num)

/-- C7: once `detenerSimulador` has run (e.g. during the pacing delay
between historical steps), the next scheduled `procesarLote` activation
sees the dropped flag before generating anything: however much fuel the
scheduler still has, no further instant is visited and `totalEnviadas`
never increases. -/
theorem detener_previene_pasos (cfg : Config) (mkFecha : ℤ → Fecha)
    (rnd : ℕ → ℚ) (envioFalla : Lectura → Bool) (fechaFin incremento : ℤ)
    (fuel : ℕ) (fechaActual : ℤ) (s : SimState) :
    (procesarLote cfg mkFecha rnd envioFalla fechaFin incremento fuel fechaActual
        (detenerSimulador s)).totalEnviadas = s.totalEnviadas ∧
    (procesarLote cfg mkFecha rnd envioFalla fechaFin incremento fuel fechaActual
        (detenerSimulador s)).visitas = s.visitas := by
  cases fuel with
  | zero => exact ⟨rfl, rfl⟩
  | succ n =>
    rw [procesarLote,
      if_pos (Or.inl (show (detenerSimulador s).corriendo = false from rfl))]
    exact ⟨rfl, rfl⟩

/-- C8: `POST /api/iniciar` while a run is active returns
`success = false` with the already-running message and leaves the whole
simulator state — points, counters, cursor trace, flags — untouched. -/
theorem apiIniciar_ya_corriendo (cfg : Config) (mkFecha : ℤ → Fecha)
    (rnd : ℕ → ℚ) (envioFalla : Lectura → Bool) (puntosDescargados : List Punto)
    (ahora : ℤ) (fuel : ℕ) (s : SimState) (hc : s.corriendo = true) :
    apiIniciar cfg mkFecha rnd envioFalla true puntosDescargados ahora fuel s =
      (s, ⟨false, some "El simulador ya esta corriendo"⟩) := by
  rw [apiIniciar, if_neg (by simp), if_pos hc]

/-- A running simulator state, used by witnesses. -/
def estadoCorriendo : SimState :=
  ⟨true, true, [puntoEjemplo], 7, [], 3, [0]⟩

/-- Witness for C8 at a concrete running state. -/
theorem apiIniciar_ya_corriendo_witness :
    apiIniciar (CONFIG 0) (fun t => ⟨t, 0, 0⟩) (fun _ => 1 / 2) (fun _ => false)
        true [puntoInactivo] 0 5 estadoCorriendo =
      (estadoCorriendo, ⟨false, some "El simulador ya esta corriendo"⟩) :=
  apiIniciar_ya_corriendo (CONFIG 0) (fun t => ⟨t, 0, 0⟩) (fun _ => 1 / 2)
    (fun _ => false) [puntoInactivo] 0 5 estadoCorriendo rfl

/-- Splitting the per-point loop over an append. -/
theorem cicloPuntos_append (cfg : Config) (fecha : Fecha) (rnd : ℕ → ℚ)
    (envioFalla : Lectura → Bool) (l₁ l₂ : List Punto) (k total : ℕ) :
    cicloPuntos cfg fecha rnd envioFalla (l₁ ++ l₂) k total =
      ((cicloPuntos cfg fecha rnd envioFalla l₁ k total).1 ++
        (cicloPuntos cfg fecha rnd envioFalla l₂
          (cicloPuntos cfg fecha rnd envioFalla l₁ k total).2.1
          (cicloPuntos cfg fecha rnd envioFalla l₁ k total).2.2).1,
        (cicloPuntos cfg fecha rnd envioFalla l₂
          (cicloPuntos cfg fecha rnd envioFalla l₁ k total).2.1
          (cicloPuntos cfg fecha rnd envioFalla l₁ k total).2.2).2) := by
  induction l₁ generalizing k total with
  | nil => simp [cicloPuntos]
  | cons p ps ih =>
    simp only [List.cons_append, cicloPuntos]
    by_cases hf : envioFalla (generarLectura cfg p fecha (fun i => rnd (k + i))).1 <;>
      simp [hf, ih]

/-- The counter grows by exactly the number of successfully handed-off
readings of the cycle. -/
theorem cicloPuntos_total (cfg : Config) (fecha : Fecha) (rnd : ℕ → ℚ)
    (envioFalla : Lectura → Bool) (ps : List Punto) (k total : ℕ) :
    (cicloPuntos cfg fecha rnd envioFalla ps k total).2.2 =
      total + (cicloPuntos cfg fecha rnd envioFalla ps k total).1.length := by
  induction ps generalizing k total with
  | nil => simp [cicloPuntos]
  | cons p l ih =>
    simp only [cicloPuntos]
    by_cases hf : envioFalla (generarLectura cfg p fecha (fun i => rnd (k + i))).1 <;>
      simp [hf, ih]
    omega

/-- Every branch of the generator stamps the reading with the point's id. -/
theorem generarLectura_id (cfg : Config) (punto : Punto) (fecha : Fecha)
    (rnd : ℕ → ℚ) :
    (generarLectura cfg punto fecha rnd).1.id_punto = punto.id := by
  unfold generarLectura
  by_cases h1 : punto.activo = false <;>
    by_cases h2 : rnd 0 < cfg.PROBABILIDAD_ERROR <;>
    simp [h1, h2]

/-- C9: a failure handing off one point's reading is isolated: that point
contributes no stored reading and no count, the cycle continues with every
remaining point exactly as it would have (same readings, same draw cursor,
same counting), `totalEnviadas` grows by exactly the number of successful
points of the cycle, and the cycle never touches the running flag. -/
theorem ejecutarCiclo_aisla_fallos (cfg : Config) (mkFecha : ℤ → Fecha)
    (fecha : Fecha) (rnd : ℕ → ℚ) (envioFalla : Lectura → Bool)
    (l₁ l₂ : List Punto) (p : Punto) (k total : ℕ)
    (hfalla : ∀ l : Lectura, l.id_punto = p.id → envioFalla l = true) :
    (cicloPuntos cfg fecha rnd envioFalla (l₁ ++ p :: l₂) k total =
      ((cicloPuntos cfg fecha rnd envioFalla l₁ k total).1 ++
        (cicloPuntos cfg fecha rnd envioFalla l₂
          ((cicloPuntos cfg fecha rnd envioFalla l₁ k total).2.1 +
            (generarLectura cfg p fecha
              (fun i => rnd ((cicloPuntos cfg fecha rnd envioFalla l₁ k total).2.1 + i))).2)
          (cicloPuntos cfg fecha rnd envioFalla l₁ k total).2.2).1,
        (cicloPuntos cfg fecha rnd envioFalla l₂
          ((cicloPuntos cfg fecha rnd envioFalla l₁ k total).2.1 +
            (generarLectura cfg p fecha
              (fun i => rnd ((cicloPuntos cfg fecha rnd envioFalla l₁ k total).2.1 + i))).2)
          (cicloPuntos cfg fecha rnd envioFalla l₁ k total).2.2).2)) ∧
    (cicloPuntos cfg fecha rnd envioFalla (l₁ ++ p :: l₂) k total).2.2 =
      total + (cicloPuntos cfg fecha rnd envioFalla (l₁ ++ p :: l₂) k total).1.length ∧
    ∀ (t : ℤ) (s : SimState),
      (ejecutarCiclo cfg mkFecha rnd envioFalla t s).corriendo = s.corriendo := by
  refine ⟨?_, cicloPuntos_total _ _ _ _ _ _ _, fun t s => rfl⟩
  rw [cicloPuntos_append]
  have hp : envioFalla (generarLectura cfg p fecha
      (fun i => rnd ((cicloPuntos cfg fecha rnd envioFalla l₁ k total).2.1 + i))).1 =
      true :=
    hfalla _ (generarLectura_id _ _ _ _)
  conv =>
    lhs
    rw [cicloPuntos, if_pos hp]

/-- Witness for C9: the middle point's persistence always fails, the outer
two succeed. -/
theorem ejecutarCiclo_aisla_fallos_witness :
    (cicloPuntos (CONFIG 0) fechaEjemplo (fun _ => 1 / 2)
        (fun l => l.id_punto == "N2") ([puntoEjemplo] ++ puntoInactivo :: [puntoEjemplo])
        0 0 =
      ((cicloPuntos (CONFIG 0) fechaEjemplo (fun _ => 1 / 2)
          (fun l => l.id_punto == "N2") [puntoEjemplo] 0 0).1 ++
        (cicloPuntos (CONFIG 0) fechaEjemplo (fun _ => 1 / 2)
          (fun l => l.id_punto == "N2") [puntoEjemplo]
          ((cicloPuntos (CONFIG 0) fechaEjemplo (fun _ => 1 / 2)
            (fun l => l.id_punto == "N2") [puntoEjemplo] 0 0).2.1 +
            (generarLectura (CONFIG 0) puntoInactivo fechaEjemplo
              (fun i => (fun _ => (1 / 2 : ℚ))
                ((cicloPuntos (CONFIG 0) fechaEjemplo (fun _ => 1 / 2)
                  (fun l => l.id_punto == "N2") [puntoEjemplo] 0 0).2.1 + i))).2)
          (cicloPuntos (CONFIG 0) fechaEjemplo (fun _ => 1 / 2)
            (fun l => l.id_punto == "N2") [puntoEjemplo] 0 0).2.2).1,
        (cicloPuntos (CONFIG 0) fechaEjemplo (fun _ => 1 / 2)
          (fun l => l.id_punto == "N2") [puntoEjemplo]
          ((cicloPuntos (CONFIG 0) fechaEjemplo (fun _ => 1 / 2)
            (fun l => l.id_punto == "N2") [puntoEjemplo] 0 0).2.1 +
            (generarLectura (CONFIG 0) puntoInactivo fechaEjemplo
              (fun i => (fun _ => (1 / 2 : ℚ))
                ((cicloPuntos (CONFIG 0) fechaEjemplo (fun _ => 1 / 2)
                  (fun l => l.id_punto == "N2") [puntoEjemplo] 0 0).2.1 + i))).2)
          (cicloPuntos (CONFIG 0) fechaEjemplo (fun _ => 1 / 2)
            (fun l => l.id_punto == "N2") [puntoEjemplo] 0 0).2.2).2)) ∧
    (cicloPuntos (CONFIG 0) fechaEjemplo (fun _ => 1 / 2)
        (fun l => l.id_punto == "N2") ([puntoEjemplo] ++ puntoInactivo :: [puntoEjemplo])
        0 0).2.2 =
      0 + (cicloPuntos (CONFIG 0) fechaEjemplo (fun _ => 1 / 2)
        (fun l => l.id_punto == "N2") ([puntoEjemplo] ++ puntoInactivo :: [puntoEjemplo])
        0 0).1.length ∧
    ∀ (t : ℤ) (s : SimState),
      (ejecutarCiclo (CONFIG 0) (fun u => ⟨u, 0, 0⟩) (fun _ => 1 / 2)
        (fun l => l.id_punto == "N2") t s).corriendo = s.corriendo :=
  ejecutarCiclo_aisla_fallos (CONFIG 0) (fun u => ⟨u, 0, 0⟩) fechaEjemplo
    (fun _ => 1 / 2) (fun l => l.id_punto == "N2") [puntoEjemplo] [puntoEjemplo]
    puntoInactivo 0 0
    (fun l h => by simp [h, puntoInactivo])

/-!
The Firestore mapper `obtenerPuntos` of `src/obtenerPuntos.js`. A stored
document is embedded as `DocDato` with `Option` fields (`none` = the field
is absent / null / undefined). JavaScript `||` treats the empty string and
the number 0 as falsy, `??` only null/undefined; `jsOrStr` and `jsOrNum`
embed the two `||` defaults and `Option.getD` the `??` one.
-/

/-- The stored data of one `puntos_monitoreo` document. -/
structure DocDato where
  id : String
  nombre : Option String
  descripcion : Option String
  ubicacion : Option String
  activo : Option Bool
  consumo_base_kwh : Option ℚ
  potencia_base_w : Option ℚ
deriving DecidableEq

/-- JavaScript `v || d` for a possibly-absent string: absent and `""` are
falsy. -/
def jsOrStr (v : Option String) (d : String) : String :=
  match v with
  | none => d
  | some x => if x = "" then d else x

/-- JavaScript `v || d` for a possibly-absent number: absent and `0` are
falsy. -/
def jsOrNum (v : Option ℚ) (d : ℚ) : ℚ :=
  match v with
  | none => d
  | some x => if x = 0 then d else x

/-- The per-document mapping of `obtenerPuntos` (`snap.docs.map(...)`). -/
def mapearPunto (docId : String) (data : DocDato) : Punto where
  docId := docId
  id := data.id
  nombre := jsOrStr data.nombre ("Punto " ++ data.id)
  descripcion := jsOrStr data.descripcion ""
  ubicacion := jsOrStr data.ubicacion ""
  activo := data.activo.getD true
  consumo_base_kwh := jsOrNum data.consumo_base_kwh 5
  potencia_base_w := jsOrNum data.potencia_base_w 500

/-- `obtenerPuntos()` over a snapshot, given as `(docId, data)` pairs. -/
def obtenerPuntos (docs : List (String × DocDato)) : List Punto :=
  docs.map fun d => mapearPunto d.1 d.2

/-- Counterexample to C10 as stated: a stored negative `consumo_base_kwh`
is truthy for `||`, so it is kept, and the returned point violates
`consumo_base_kwh > 0`. -/
theorem obtenerPuntos_contraejemplo :
    ((obtenerPuntos [("d1", ⟨"N1", none, none, none, none, some (-3), none⟩)]).map
      fun p => p.consumo_base_kwh) = [(-3 : ℚ)] ∧
    ¬ ∀ p ∈ obtenerPuntos [("d1", ⟨"N1", none, none, none, none, some (-3), none⟩)],
      0 < p.consumo_base_kwh := by
  constructor
  · rfl
  · intro h
    have := h (mapearPunto "d1" ⟨"N1", none, none, none, none, some (-3), none⟩)
      (by simp [obtenerPuntos])
    norm_num [mapearPunto, jsOrNum] at this

/-- C10 (amended): `obtenerPuntos` replaces missing or falsy stored fields
by defaults — `activo` defaults to `true` only when absent, `nombre` to
`"Punto <id>"` when absent or empty, `consumo_base_kwh` to `5` and
`potencia_base_w` to `500` when absent or `0` — so the returned numeric
fields are never `0`; they are positive whenever the stored values are
nonnegative (negative stored values are truthy and are kept as stored). -/
theorem mapearPunto_defaults (docId : String) (data : DocDato)
    (hc : ∀ x : ℚ, data.consumo_base_kwh = some x → 0 ≤ x)
    (hp : ∀ x : ℚ, data.potencia_base_w = some x → 0 ≤ x) :
    (data.activo = none → (mapearPunto docId data).activo = true) ∧
    (∀ b : Bool, data.activo = some b → (mapearPunto docId data).activo = b) ∧
    (data.nombre = none ∨ data.nombre = some "" →
      (mapearPunto docId data).nombre = "Punto " ++ data.id) ∧
    (data.consumo_base_kwh = none ∨ data.consumo_base_kwh = some 0 →
      (mapearPunto docId data).consumo_base_kwh = 5) ∧
    (data.potencia_base_w = none ∨ data.potencia_base_w = some 0 →
      (mapearPunto docId data).potencia_base_w = 500) ∧
    (mapearPunto docId data).consumo_base_kwh ≠ 0 ∧
    (mapearPunto docId data).potencia_base_w ≠ 0 ∧
    0 < (mapearPunto docId data).consumo_base_kwh ∧
    0 < (mapearPunto docId data).potencia_base_w := by
  refine ⟨?_, ?_, ?_, ?_, ?_, ?_, ?_, ?_, ?_⟩
  · intro h; simp [mapearPunto, h]
  · intro b h; simp [mapearPunto, h]
  · rintro (h | h) <;> simp [mapearPunto, jsOrStr, h]
  · rintro (h | h) <;> simp [mapearPunto, jsOrNum, h]
  · rintro (h | h) <;> simp [mapearPunto, jsOrNum, h]
  · show jsOrNum data.consumo_base_kwh 5 ≠ 0
    unfold jsOrNum
    cases h : data.consumo_base_kwh with
    | none => norm_num
    | some x => by_cases hx : x = 0 <;> simp [hx]
  · show jsOrNum data.potencia_base_w 500 ≠ 0
    unfold jsOrNum
    cases h : data.potencia_base_w with
    | none => norm_num
    | some x => by_cases hx : x = 0 <;> simp [hx]
  · show 0 < jsOrNum data.consumo_base_kwh 5
    unfold jsOrNum
    cases h : data.consumo_base_kwh with
    | none => norm_num
    | some x =>
      by_cases hx : x = 0
      · simp [hx]
      · have := hc x h
        simp only [if_neg hx]
        exact lt_of_le_of_ne this (Ne.symm hx)
  · show 0 < jsOrNum data.potencia_base_w 500
    unfold jsOrNum
    cases h : data.potencia_base_w with
    | none => norm_num
    | some x =>
      by_cases hx : x = 0
      · simp [hx]
      · have := hp x h
        simp only [if_neg hx]
        exact lt_of_le_of_ne this (Ne.symm hx)

/-- Witness for the amended C10 at a concrete stored document with every
field absent except the id. -/
theorem mapearPunto_defaults_witness :
    ((⟨"N1", none, none, none, none, none, none⟩ : DocDato).activo = none →
      (mapearPunto "d1" ⟨"N1", none, none, none, none, none, none⟩).activo = true) ∧
    (∀ b : Bool, (⟨"N1", none, none, none, none, none, none⟩ : DocDato).activo = some b →
      (mapearPunto "d1" ⟨"N1", none, none, none, none, none, none⟩).activo = b) ∧
    ((⟨"N1", none, none, none, none, none, none⟩ : DocDato).nombre = none ∨
        (⟨"N1", none, none, none, none, none, none⟩ : DocDato).nombre = some "" →
      (mapearPunto "d1" ⟨"N1", none, none, none, none, none, none⟩).nombre =
        "Punto " ++ (⟨"N1", none, none, none, none, none, none⟩ : DocDato).id) ∧
    ((⟨"N1", none, none, none, none, none, none⟩ : DocDato).consumo_base_kwh = none ∨
        (⟨"N1", none, none, none, none, none, none⟩ : DocDato).consumo_base_kwh = some 0 →
      (mapearPunto "d1" ⟨"N1", none, none, none, none, none, none⟩).consumo_base_kwh = 5) ∧
    ((⟨"N1", none, none, none, none, none, none⟩ : DocDato).potencia_base_w = none ∨
        (⟨"N1", none, none, none, none, none, none⟩ : DocDato).potencia_base_w = some 0 →
      (mapearPunto "d1" ⟨"N1", none, none, none, none, none, none⟩).potencia_base_w = 500) ∧
    (mapearPunto "d1" ⟨"N1", none, none, none, none, none, none⟩).consumo_base_kwh ≠ 0 ∧
    (mapearPunto "d1" ⟨"N1", none, none, none, none, none, none⟩).potencia_base_w ≠ 0 ∧
    0 < (mapearPunto "d1" ⟨"N1", none, none, none, none, none, none⟩).consumo_base_kwh ∧
    0 < (mapearPunto "d1" ⟨"N1", none, none, none, none, none, none⟩).potencia_base_w :=
  mapearPunto_defaults "d1" ⟨"N1", none, none, none, none, none, none⟩
    (fun x h => by simp at h) (fun x h => by simp at h)

end NubeVerde
